import Mathlib

/-!
Verification of the on-chain deployment orchestration subsystem of the
nexus-prediction-market-V2 repository: a shallow embedding in Lean 4 of the
alert service, the gas manager, the blockchain deployment service, the
market-resolution deployment queue, and the deployment queue processor,
together with theorems settling the specification claims about them.

Conventions of the embedding:
- JS bigint values are embedded as integers, JS number values as rationals
  (arithmetic is exact; the source computes with IEEE doubles).
- Async methods are embedded as pure functions; the outcome of each external
  call (RPC provider, signer, database) is passed in as an explicit argument,
  and awaited promises that can reject are embedded as Except values.
- Wall-clock time is passed explicitly (a natural number of milliseconds,
  or poll ticks for the confirmation loop).
- The database behind the queue stubs is modelled as an in-memory list of job
  records; an update with a given id rewrites every record with that id.
-/

namespace Nexus

/-! ### Alert service (src/unnamed/part_000)

Embedding of AlertService: alert levels, channels, deduplication keyed on
source and title, channel routing by level, and predicate-rule evaluation. -/

/-- Alert severity levels (enum AlertLevel). -/
inductive AlertLevel
  | INFO
  | WARNING
  | CRITICAL
deriving DecidableEq, Repr

/-- Notification channels (enum NotificationChannel). -/
inductive NotificationChannel
  | EMAIL
  | SLACK
  | SMS
deriving DecidableEq, Repr

/-- Alert lifecycle status (enum AlertStatus). -/
inductive AlertStatus
  | ACTIVE
  | ACKNOWLEDGED
  | RESOLVED
deriving DecidableEq, Repr

/-- An alert record (interface Alert). The random id and the wall-clock
timestamp assigned by createAlert are not tracked by the claims settled here,
so constructed alerts carry a fixed id and timestamp; the metadata bag is
omitted. -/
structure Alert where
  id : String
  title : String
  description : String
  level : AlertLevel
  status : AlertStatus
  timestamp : Nat
  source : String
deriving DecidableEq, Repr

/-- Notification configuration: whether each channel is enabled
(interface NotificationConfig, flattened to the enabled flags the send
helpers test). -/
structure NotificationConfig where
  emailEnabled : Bool
  slackEnabled : Bool
  smsEnabled : Bool
deriving DecidableEq, Repr

/-- Mutable state of an AlertService instance relevant to deduplication:
the notification config, the deduplication window in milliseconds, and the
lastAlertTime map from dedup keys to the time of the last dispatch. -/
structure AlertServiceState where
  notificationConfig : NotificationConfig
  deduplicationWindow : Nat
  lastAlertTime : List (String × Nat)
deriving DecidableEq, Repr

/-- Key used for deduplication: source and title joined by a colon. -/
def dedupKey (a : Alert) : String :=
  a.source ++ ":" ++ a.title

/-- Lookup in the lastAlertTime association list (Map.get). -/
def lookupTime (m : List (String × Nat)) (k : String) : Option Nat :=
  (m.find? (fun p => p.1 == k)).map (fun p => p.2)

/-- Update of the lastAlertTime association list (Map.set). -/
def setTime (m : List (String × Nat)) (k : String) (t : Nat) : List (String × Nat) :=
  (k, t) :: m.filter (fun p => p.1 != k)

/-- AlertService.shouldTriggerAlert: dispatch is allowed when the key has no
recorded dispatch time (a recorded time of 0 is falsy in JS and treated the
same way) or when strictly more than deduplicationWindow milliseconds have
passed since the recorded time. -/
def shouldTriggerAlert (st : AlertServiceState) (a : Alert) (now : Nat) : Bool :=
  match lookupTime st.lastAlertTime (dedupKey a) with
  | none => true
  | some lastTime =>
    if lastTime = 0 then true
    else decide (st.deduplicationWindow < now - lastTime)

/-- AlertService.getChannelsForLevel: routing of levels to channels. -/
def getChannelsForLevel : AlertLevel → List NotificationChannel
  | .CRITICAL => [.EMAIL, .SLACK, .SMS]
  | .WARNING => [.EMAIL, .SLACK]
  | .INFO => [.SLACK]

/-- AlertService.sendNotification: each channel send succeeds exactly when the
channel is enabled in the notification config (the stubbed send bodies return
true after the enabled guard). -/
def sendNotification (cfg : NotificationConfig) : NotificationChannel → Bool
  | .EMAIL => cfg.emailEnabled
  | .SLACK => cfg.slackEnabled
  | .SMS => cfg.smsEnabled

/-- Result of a triggerAlert call: the boolean the method returns, the list of
channels to which a send was attempted (the observable dispatch), and the
service state after the call. -/
structure TriggerResult where
  returned : Bool
  sent : List NotificationChannel
  state : AlertServiceState
deriving DecidableEq, Repr

/-- AlertService.triggerAlert at time now: a deduplicated call returns false
and sends nothing; otherwise the dispatch time is recorded under the dedup key
and a send is attempted on every channel for the alert level, the returned
boolean being the conjunction of the per-channel send results. -/
def triggerAlert (st : AlertServiceState) (a : Alert) (now : Nat) : TriggerResult :=
  if shouldTriggerAlert st a now then
    let st1 : AlertServiceState :=
      { st with lastAlertTime := setTime st.lastAlertTime (dedupKey a) now }
    let channels := getChannelsForLevel a.level
    { returned := channels.all (fun c => sendNotification st1.notificationConfig c)
      sent := channels
      state := st1 }
  else
    { returned := false, sent := [], state := st }

/-- An alert rule (interface AlertRule): the condition predicate receives the
event payload and may throw, which is embedded as an Except value. -/
structure AlertRule (α : Type) where
  id : String
  name : String
  condition : α → Except String Bool
  level : AlertLevel
  channels : List NotificationChannel
  enabled : Bool

/-- The alert constructed by evaluateRules for a triggered rule
(via createAlert with source rule-engine). -/
def ruleAlert {α : Type} (rule : AlertRule α) : Alert :=
  { id := ""
    title := rule.name
    description := "Rule triggered: " ++ rule.name
    level := rule.level
    status := .ACTIVE
    timestamp := 0
    source := "rule-engine" }

/-- AlertService.evaluateRules: walk the rules in order; a disabled rule is
skipped, a rule whose condition throws is caught and skipped, and a rule whose
condition returns true contributes one alert. -/
def evaluateRules {α : Type} (rules : List (AlertRule α)) (data : α) : List Alert :=
  match rules with
  | [] => []
  | rule :: rest =>
    if rule.enabled then
      match rule.condition data with
      | .ok true => ruleAlert rule :: evaluateRules rest data
      | .ok false => evaluateRules rest data
      | .error _ => evaluateRules rest data
    else
      evaluateRules rest data

/-- Whether a rule fires on a payload: its condition returns true without
throwing. -/
def condTrue {α : Type} (data : α) (rule : AlertRule α) : Bool :=
  match rule.condition data with
  | .ok true => true
  | _ => false

/-! ### Gas manager (src/unnamed/part_001, gasManager.ts)

Embedding of GasManager: multiplier application with ceiling rounding, legacy
gas price, EIP-1559 fees, gas-limit estimation with a default fallback, and
the combined estimate. -/

/-- Gas configuration (interface GasConfig). Multipliers and bounds are JS
numbers, embedded as rationals. -/
structure GasConfig where
  priceMultiplier : ℚ
  limitMultiplier : ℚ
  maxGasPriceGwei : ℚ
  minGasPriceGwei : ℚ
  ethPriceUSD : ℚ
deriving DecidableEq, Repr

/-- GasManager.applyMultiplier: multiply a bigint value by a numeric
multiplier and round up (BigInt of Math.ceil). -/
def applyMultiplier (value : ℤ) (multiplier : ℚ) : ℤ :=
  ⌈(value : ℚ) * multiplier⌉

/-- GasManager.getGasPrice: the provider gas price with the price multiplier
applied. -/
def getGasPrice (providerGasPrice : ℤ) (cfg : GasConfig) : ℤ :=
  applyMultiplier providerGasPrice cfg.priceMultiplier

/-- Fee data returned by provider.getFeeData; either field may be missing. -/
structure FeeData where
  maxFeePerGas : Option ℤ
  maxPriorityFeePerGas : Option ℤ
deriving DecidableEq, Repr

/-- GasManager.getEIP1559Fees: fails when either fee-market field is missing
(a zero value is falsy in JS and rejected the same way); otherwise applies the
price multiplier to both fields. -/
def getEIP1559Fees (feeData : FeeData) (cfg : GasConfig) : Except String (ℤ × ℤ) :=
  match feeData.maxFeePerGas, feeData.maxPriorityFeePerGas with
  | some mf, some mp =>
    if mf = 0 ∨ mp = 0 then .error "Failed to get EIP-1559 fees"
    else .ok (applyMultiplier mf cfg.priceMultiplier,
              applyMultiplier mp cfg.priceMultiplier)
  | _, _ => .error "Failed to get EIP-1559 fees"

/-- GasManager.estimateTransactionGas: the provider estimate with the limit
multiplier applied; if the provider call fails, the default limit 300000. -/
def estimateTransactionGas (estimateResult : Except String ℤ) (cfg : GasConfig) : ℤ :=
  match estimateResult with
  | .ok g => applyMultiplier g cfg.limitMultiplier
  | .error _ => 300000

/-- Gas estimation result (interface GasEstimate). -/
structure GasEstimate where
  gasLimit : ℤ
  gasPrice : ℤ
  maxFeePerGas : ℤ
  maxPriorityFeePerGas : ℤ
  totalCost : ℤ
  totalCostInUSD : ℚ
deriving DecidableEq, Repr

/-- GasManager.estimateGas: combine the gas limit estimate, the EIP-1559 fees,
and the legacy gas price into one quote; totalCost is gasLimit times
maxFeePerGas and totalCostInUSD converts it at the configured ETH price. -/
def estimateGas (cfg : GasConfig) (providerGasPrice : ℤ) (feeData : FeeData)
    (estimateResult : Except String ℤ) : Except String GasEstimate :=
  let gasLimit := estimateTransactionGas estimateResult cfg
  match getEIP1559Fees feeData cfg with
  | .error e => .error e
  | .ok fees =>
    let totalCost := gasLimit * fees.1
    .ok { gasLimit := gasLimit
          gasPrice := getGasPrice providerGasPrice cfg
          maxFeePerGas := fees.1
          maxPriorityFeePerGas := fees.2
          totalCost := totalCost
          totalCostInUSD := (totalCost : ℚ) / 10 ^ 18 * cfg.ethPriceUSD }

/-- The quoted price as the specification words it: the ceiling of the base
price times the multiplier. Stated separately from the source-derived
getGasPrice so the two can be compared. -/
def specQuoteGasPrice (p : ℤ) (m : ℚ) : ℤ :=
  ⌈(p : ℚ) * m⌉

/-! ### Blockchain deployment service (src/server/services/blockchainDeployment.ts)

Embedding of BlockchainDeploymentService: parameter validation for the two
contract kinds, the confirmation-wait poll loop, and the retry wrapper with
exponential backoff. -/

/-- Modelled from the spec: ethers.isAddress, the address well-formedness
check of the external ethers library, which is not part of this repository.
An address is 0x followed by 40 hexadecimal digits; the EIP-55 mixed-case
checksum variant is not modelled, so only lower-case hex letters are
accepted. -/
def isAddress (s : String) : Bool :=
  match s.data with
  | '0' :: 'x' :: rest =>
    rest.length == 40 && rest.all (fun c => c.isDigit || ('a' ≤ c && c ≤ 'f'))
  | _ => false

/-- Whitespace trim on the underlying character list
(JS String.prototype.trim). -/
def jsTrim (s : String) : String :=
  ⟨((s.data.dropWhile Char.isWhitespace).reverse.dropWhile Char.isWhitespace).reverse⟩

/-- BinaryMarket deployment parameters
(interface BinaryMarketDeployParams). -/
structure BinaryMarketDeployParams where
  title : String
  description : String
  endTime : ℚ
  oracleAddress : String
  initialLiquidity : ℤ
deriving DecidableEq, Repr

/-- CopyTradingVault deployment parameters
(interface CopyTradingVaultDeployParams). -/
structure CopyTradingVaultDeployParams where
  leader : String
  name : String
  performanceFee : ℚ
  managementFee : ℚ
deriving DecidableEq, Repr

/-- BlockchainDeploymentService.validateBinaryMarketParams at current time
nowMs milliseconds: empty or all-whitespace title and description are
rejected, the end time must be strictly later than nowMs divided by 1000,
the oracle address must be well formed, and the initial liquidity strictly
positive. -/
def validateBinaryMarketParams (nowMs : ℚ) (params : BinaryMarketDeployParams) :
    Except String Unit :=
  if params.title = "" ∨ (jsTrim params.title).length = 0 then
    .error "Invalid title: must not be empty"
  else if params.description = "" ∨ (jsTrim params.description).length = 0 then
    .error "Invalid description: must not be empty"
  else if params.endTime ≤ nowMs / 1000 then
    .error "Invalid endTime: must be in the future"
  else if ¬ isAddress params.oracleAddress then
    .error "Invalid oracleAddress: must be a valid Ethereum address"
  else if params.initialLiquidity ≤ 0 then
    .error "Invalid initialLiquidity: must be greater than 0"
  else
    .ok ()

/-- BlockchainDeploymentService.validateCopyTradingVaultParams: the leader
address must be well formed, the name non-empty, and each fee individually
between 0 and 100. No condition relates the two fees to each other. -/
def validateCopyTradingVaultParams (params : CopyTradingVaultDeployParams) :
    Except String Unit :=
  if ¬ isAddress params.leader then
    .error "Invalid leader: must be a valid Ethereum address"
  else if params.name = "" ∨ (jsTrim params.name).length = 0 then
    .error "Invalid name: must not be empty"
  else if params.performanceFee < 0 ∨ 100 < params.performanceFee then
    .error "Invalid performanceFee: must be between 0 and 100"
  else if params.managementFee < 0 ∨ 100 < params.managementFee then
    .error "Invalid managementFee: must be between 0 and 100"
  else
    .ok ()

/-- A transaction receipt as observed by the confirmation wait: its
confirmation count and its on-chain status (1 for success, 0 for a
transaction that was mined but reverted). -/
structure TxReceipt where
  confirmations : Nat
  status : Nat
deriving DecidableEq, Repr

/-- Poll loop of BlockchainDeploymentService.waitForConfirmation, one tick per
one-second sleep: at tick t the provider is asked for the receipt; if a
receipt is present and its confirmation count has reached the threshold it is
returned as the successful result, with no examination of any other receipt
field; otherwise the loop continues until the fuel (the timeout in seconds)
runs out. -/
def waitLoop (receiptAt : Nat → Option TxReceipt) (confirmationBlocks : Nat) :
    Nat → Nat → Except String TxReceipt
  | _, 0 => .error "Deployment timeout"
  | t, fuel + 1 =>
    match receiptAt t with
    | some r =>
      if confirmationBlocks ≤ r.confirmations then .ok r
      else waitLoop receiptAt confirmationBlocks (t + 1) fuel
    | none => waitLoop receiptAt confirmationBlocks (t + 1) fuel

/-- BlockchainDeploymentService.waitForConfirmation: run the poll loop from
tick 0 with timeoutSeconds ticks of fuel. -/
def waitForConfirmation (receiptAt : Nat → Option TxReceipt)
    (confirmationBlocks timeoutSeconds : Nat) : Except String TxReceipt :=
  waitLoop receiptAt confirmationBlocks 0 timeoutSeconds

/-- Whether the provider would return a qualifying receipt at tick t. -/
def qualifyingAt (receiptAt : Nat → Option TxReceipt) (confirmationBlocks t : Nat) : Bool :=
  match receiptAt t with
  | some r => confirmationBlocks ≤ r.confirmations
  | none => false

/-- A deployment result (interface DeploymentResult). -/
structure DeploymentResult where
  contractAddress : String
  transactionHash : String
  blockNumber : Nat
  gasUsed : ℤ
  deploymentTime : Nat
  confirmations : Nat
deriving DecidableEq, Repr

/-- Trace of a retryDeployment run: the final outcome (an error carries the
message of the last underlying failure, the field of the wrapping
MaxRetriesExceeded error the source throws), the backoff delays slept between
attempts in order, and the attempt numbers at which the operation was
invoked. -/
structure RetryTrace (R : Type) where
  result : Except (Option String) R
  delays : List Nat
  attempts : List Nat
deriving Repr

/-- Loop of BlockchainDeploymentService.retryDeployment: op gives the outcome
of the deployment attempt with a given number; lastErr is the last recorded
failure, attempt the next attempt number, fuel the number of attempts still
allowed. On a failure with attempts remaining the loop sleeps
retryDelayMs times 2 to the power (attempt - 1) and continues. -/
def retryGo {R : Type} (op : Nat → Except String R) (retryDelayMs : Nat)
    (lastErr : Option String) (attempt : Nat) : Nat → RetryTrace R
  | 0 => { result := .error lastErr, delays := [], attempts := [] }
  | fuel + 1 =>
    match op attempt with
    | .ok r => { result := .ok r, delays := [], attempts := [attempt] }
    | .error e =>
      match fuel with
      | 0 => { result := .error (some e), delays := [], attempts := [attempt] }
      | f + 1 =>
        let t := retryGo op retryDelayMs (some e) (attempt + 1) (f + 1)
        { result := t.result
          delays := retryDelayMs * 2 ^ (attempt - 1) :: t.delays
          attempts := attempt :: t.attempts }

/-- BlockchainDeploymentService.retryDeployment: attempts numbered from 1, at
most maxRetries of them. -/
def retryDeployment {R : Type} (op : Nat → Except String R)
    (maxRetries retryDelayMs : Nat) : RetryTrace R :=
  retryGo op retryDelayMs none 1 maxRetries

/-! ### Market resolution deployment queue (src/unnamed/part_001,
MarketResolutionService)

Embedding of the per-item deployment step and its failure handler: an item is
marked DEPLOYING, the deployment is attempted, success finalizes DEPLOYED, and
a failure either re-queues the item as PENDING with an incremented retry count
or finalizes it FAILED with one owner notification. -/

/-- Deployment status of a queue row (contractDeployQueue.deploymentStatus). -/
inductive DeployStatus
  | PENDING
  | DEPLOYING
  | DEPLOYED
  | FAILED
deriving DecidableEq, Repr

/-- A contract deployment queue row, restricted to the fields the resolution
service reads and writes. -/
structure DeployQueueItem where
  id : Nat
  retryCount : Nat
  maxRetries : Nat
  deploymentStatus : DeployStatus
  lastError : Option String
deriving DecidableEq, Repr

/-- MarketResolutionService.handleDeploymentFailure: the retry count is
incremented; when the incremented count has reached maxRetries, the item is
finalized FAILED (the stored retryCount is not updated in that branch) and the
owner is notified once; otherwise the item is re-queued PENDING with the
incremented count. The second component counts the owner notifications sent
by the call. -/
def handleDeploymentFailure (item : DeployQueueItem) (err : String) :
    DeployQueueItem × Nat :=
  let newRetryCount := item.retryCount + 1
  if item.maxRetries ≤ newRetryCount then
    ({ item with deploymentStatus := .FAILED, lastError := some err }, 1)
  else
    ({ item with deploymentStatus := .PENDING, retryCount := newRetryCount,
                 lastError := some err }, 0)

/-- Result of the (mocked) contract deployment of the resolution service. -/
structure ResolutionDeployResult where
  address : String
  tx : String
deriving DecidableEq, Repr

/-- One iteration of MarketResolutionService.processDeploymentQueue for a
single item, with the outcome of the deployment call passed in: the item is
first marked DEPLOYING, a successful deployment finalizes it DEPLOYED, and a
thrown error is caught by the loop and routed to handleDeploymentFailure. -/
def processDeploymentItem (item : DeployQueueItem)
    (outcome : Except String ResolutionDeployResult) : DeployQueueItem × Nat :=
  let item1 : DeployQueueItem := { item with deploymentStatus := .DEPLOYING }
  match outcome with
  | .ok _ => ({ item1 with deploymentStatus := .DEPLOYED }, 0)
  | .error e => handleDeploymentFailure item1 e

/-! ### Deployment queue processor (src/server/routers/phaseABCD.ts,
DeploymentQueueProcessor)

Embedding of processQueue and its helpers. The database behind the
getQueueItems, updateQueueItemStatus and saveDeploymentResult stubs is
modelled as the in-memory list of queue items carried in the state; the
outcome of the deployment service call for an item is passed in as the
function deploy. -/

/-- Queue item status (DeploymentQueueItem.status). -/
inductive ItemStatus
  | pending
  | processing
  | completed
  | failed
deriving DecidableEq, Repr

/-- Queue item contract type (DeploymentQueueItem.type). -/
inductive ItemType
  | binaryMarket
  | copyTradingVault
deriving DecidableEq, Repr

/-- The parameter bag of a queue item, tagged by contract kind. -/
inductive DeployParams
  | binary (p : BinaryMarketDeployParams)
  | vault (p : CopyTradingVaultDeployParams)
deriving DecidableEq, Repr

/-- A deployment queue item (interface DeploymentQueueItem); the createdAt and
updatedAt timestamps play no role in the processor and are omitted. -/
structure QueueItem where
  id : Nat
  itemType : ItemType
  params : DeployParams
  status : ItemStatus
  retryCount : Nat
  maxRetries : Nat
  errorMsg : Option String
deriving DecidableEq, Repr

/-- An alert as created by the processor through
AlertService.createAlert. -/
structure AlertRec where
  title : String
  description : String
  level : AlertLevel
  source : String
deriving DecidableEq, Repr

/-- State touched by a DeploymentQueueProcessor run: the stored queue items,
the isProcessing re-entrancy flag, and the alerts created so far. -/
structure QueueState where
  items : List QueueItem
  isProcessing : Bool
  alerts : List AlertRec
deriving DecidableEq, Repr

/-- The name under which an item type appears in alert titles. -/
def typeName : ItemType → String
  | .binaryMarket => "BinaryMarket"
  | .copyTradingVault => "CopyTradingVault"

/-- DeploymentQueueProcessor.getQueueItems: up to limit stored items with the
given status. -/
def getQueueItems (s : QueueState) (st : ItemStatus) (limit : Nat) : List QueueItem :=
  (s.items.filter (fun it => it.status == st)).take limit

/-- DeploymentQueueProcessor.updateQueueItemStatus: rewrite the status of the
stored item with the given id. -/
def updateQueueItemStatus (s : QueueState) (itemId : Nat) (st : ItemStatus) : QueueState :=
  { s with items := s.items.map (fun it =>
      if it.id = itemId then { it with status := st } else it) }

/-- AlertService.createAlert as invoked by the processor: append the alert
record. -/
def createAlert (s : QueueState) (title description : String) (level : AlertLevel)
    (source : String) : QueueState :=
  { s with alerts := s.alerts ++ [{ title := title, description := description,
                                    level := level, source := source }] }

/-- DeploymentQueueProcessor.markQueueItemFailed: record the error message on
the item and set its status to failed. No alert is created here. -/
def markQueueItemFailed (s : QueueState) (item : QueueItem) (err : String) : QueueState :=
  let s1 : QueueState := { s with items := s.items.map (fun it =>
    if it.id = item.id then { it with errorMsg := some err } else it) }
  updateQueueItemStatus s1 item.id .failed

/-- DeploymentQueueProcessor.processQueueItem: mark the item processing, run
the deployment; success marks it completed with an INFO alert, and any thrown
error, a validation error as much as any other, marks it failed with a
WARNING alert, leaving every retry count unchanged. -/
def processQueueItem (deploy : QueueItem → Except String DeploymentResult)
    (s : QueueState) (item : QueueItem) : QueueState :=
  let s1 := updateQueueItemStatus s item.id .processing
  match deploy item with
  | .ok res =>
    let s2 := updateQueueItemStatus s1 item.id .completed
    createAlert s2 (typeName item.itemType ++ " Deployment Successful")
      ("Contract deployed successfully at " ++ res.contractAddress)
      .INFO "deployment-queue"
  | .error e =>
    let s2 := markQueueItemFailed s1 item e
    createAlert s2 (typeName item.itemType ++ " Deployment Failed")
      ("Deployment failed: " ++ e)
      .WARNING "deployment-queue"

/-- DeploymentQueueProcessor.retryQueueItem: increment the retry count of the
item (on the in-memory record and on the stored row) and re-run
processQueueItem on it. -/
def retryQueueItem (deploy : QueueItem → Except String DeploymentResult)
    (s : QueueState) (item : QueueItem) : QueueState :=
  let item1 : QueueItem := { item with retryCount := item.retryCount + 1 }
  let s1 : QueueState := { s with items := s.items.map (fun it =>
    if it.id = item.id then { it with retryCount := it.retryCount + 1 } else it) }
  processQueueItem deploy s1 item1

/-- DeploymentQueueProcessor.processQueue: a no-op when a batch is already in
progress; otherwise set isProcessing, fetch up to batchSize pending items
(returning early when there are none), process each, then fetch up to
batchSize failed items and retry those with retry budget left, finalizing the
rest with the message Max retries exceeded. The parameter dbErr injects a
data-access failure at the start of the batch: such an exception is caught at
batch level and reported as one CRITICAL alert. On every path other than the
re-entrancy no-op, the finally block clears isProcessing before the call
returns. -/
def processQueue (deploy : QueueItem → Except String DeploymentResult)
    (batchSize : Nat) (dbErr : Option String) (s : QueueState) : QueueState :=
  if s.isProcessing then s
  else
    let s0 : QueueState := { s with isProcessing := true }
    let s1 :=
      match dbErr with
      | some e =>
        createAlert s0 "Deployment Queue Processing Error"
          ("Failed to process deployment queue: " ++ e) .CRITICAL "deployment-queue"
      | none =>
        let pending := getQueueItems s0 .pending batchSize
        if pending.isEmpty then s0
        else
          let s2 := pending.foldl (fun acc it => processQueueItem deploy acc it) s0
          let failedItems := getQueueItems s2 .failed batchSize
          failedItems.foldl (fun (acc : QueueState) (it : QueueItem) =>
            if it.retryCount < it.maxRetries then retryQueueItem deploy acc it
            else markQueueItemFailed acc it "Max retries exceeded") s2
    { s1 with isProcessing := false }

/-! ### Concrete fixtures used by witnesses and counterexamples -/

/-- A gas configuration with the default multipliers of the source
(1.2 and 1.3) and default bounds. -/
def cfgEx : GasConfig :=
  { priceMultiplier := 6 / 5, limitMultiplier := 13 / 10,
    maxGasPriceGwei := 500, minGasPriceGwei := 1, ethPriceUSD := 2000 }

/-- A gas configuration with both multipliers equal to one. -/
def cfgOne : GasConfig :=
  { priceMultiplier := 1, limitMultiplier := 1,
    maxGasPriceGwei := 500, minGasPriceGwei := 1, ethPriceUSD := 2000 }

/-- Provider fee data with both fee-market fields present. -/
def fdEx : FeeData :=
  { maxFeePerGas := some 30, maxPriorityFeePerGas := some 2 }

/-- A deployment-queue row that has already failed twice out of a budget of
three. -/
def deployItemCex : DeployQueueItem :=
  { id := 7, retryCount := 2, maxRetries := 3, deploymentStatus := .PENDING,
    lastError := none }

/-- A fresh deployment-queue row with an untouched retry budget. -/
def deployItemFresh : DeployQueueItem :=
  { id := 8, retryCount := 0, maxRetries := 3, deploymentStatus := .PENDING,
    lastError := none }

/-! ### C7 — gas price quoting -/

/-- Claim C7: for every configured priceMultiplier m greater than one and
every base gas price p from the provider, the quoted gas price equals the
ceiling of p times m, and for a fixed configuration the quote is monotone
non-decreasing in p. -/
theorem getGasPrice_ceil_monotone (cfg : GasConfig) (h : 1 < cfg.priceMultiplier) :
    (∀ p : ℤ, getGasPrice p cfg = specQuoteGasPrice p cfg.priceMultiplier) ∧
    (∀ p1 p2 : ℤ, p1 ≤ p2 → getGasPrice p1 cfg ≤ getGasPrice p2 cfg) := by
  constructor
  · intro p
    rfl
  · intro p1 p2 hp
    have hm : (0 : ℚ) ≤ cfg.priceMultiplier := le_of_lt (lt_trans one_pos h)
    exact Int.ceil_le_ceil
      (mul_le_mul_of_nonneg_right (by exact_mod_cast hp) hm)

/-- Witness for C7 at the default multiplier 1.2 and base prices 40 and 50. -/
theorem getGasPrice_ceil_monotone_witness :
    (1 : ℚ) < cfgEx.priceMultiplier ∧
    getGasPrice 40 cfgEx = specQuoteGasPrice 40 cfgEx.priceMultiplier ∧
    getGasPrice 40 cfgEx ≤ getGasPrice 50 cfgEx :=
  ⟨by norm_num [cfgEx],
   (getGasPrice_ceil_monotone cfgEx (by norm_num [cfgEx])).1 40,
   (getGasPrice_ceil_monotone cfgEx (by norm_num [cfgEx])).2 40 50 (by norm_num)⟩

/-! ### C10 — rule evaluation -/

/-- Claim C10: evaluateRules is total (it is a Lean function, with thrown
conditions embedded as error values that are caught and skipped), disabled
rules and throwing rules contribute no alert without aborting the remaining
rules, and the returned list holds exactly one alert, in order, for each
enabled rule whose condition returned true. -/
theorem evaluateRules_filter_map {α : Type} (rules : List (AlertRule α)) (data : α) :
    evaluateRules rules data =
      (rules.filter (fun r => r.enabled && condTrue data r)).map ruleAlert := by
  induction rules with
  | nil => rfl
  | cons rule rest ih =>
    cases he : rule.enabled with
    | false => simp [evaluateRules, he, ih, List.filter_cons]
    | true =>
      cases hc : rule.condition data with
      | ok b =>
        cases b <;> simp [evaluateRules, he, hc, condTrue, ih, List.filter_cons]
      | error e =>
        simp [evaluateRules, he, hc, condTrue, ih, List.filter_cons]

/-! ### C8 — copy-trading vault parameter validation -/

/-- A vault whose fees sum to 120 percent, each individually within
0 to 100. -/
def vaultFeeSumParams : CopyTradingVaultDeployParams :=
  { leader := "0xaaaaaaaaaaaaaaaaaaaaaaaaaaaaaaaaaaaaaaaa", name := "Vault A",
    performanceFee := 60, managementFee := 60 }

/-- A vault with modest fees that validates successfully. -/
def vaultOkParams : CopyTradingVaultDeployParams :=
  { leader := "0xaaaaaaaaaaaaaaaaaaaaaaaaaaaaaaaaaaaaaaaa", name := "Vault B",
    performanceFee := 20, managementFee := 10 }

/-- Counterexample to claim C8 as stated: a parameter set whose fee sum
exceeds 100 percent passes validation, so the deploy does not fail with a
validation error before submission. -/
theorem vault_fee_sum_not_checked_cex :
    (100 : ℚ) < vaultFeeSumParams.performanceFee + vaultFeeSumParams.managementFee ∧
    validateCopyTradingVaultParams vaultFeeSumParams = .ok () := by
  constructor
  · norm_num [vaultFeeSumParams]
  · rfl

/-- Claim C8 amended: validation accepts a CopyTradingVault parameter set if
and only if the leader is a well-formed address, the name is non-blank, and
each fee individually lies between 0 and 100; the sum of the two fees is not
constrained. -/
theorem validateCopyTradingVaultParams_ok_iff (p : CopyTradingVaultDeployParams) :
    validateCopyTradingVaultParams p = .ok () ↔
      (isAddress p.leader = true ∧
       ¬ (p.name = "" ∨ (jsTrim p.name).length = 0) ∧
       0 ≤ p.performanceFee ∧ p.performanceFee ≤ 100 ∧
       0 ≤ p.managementFee ∧ p.managementFee ≤ 100) := by
  constructor
  · intro h
    unfold validateCopyTradingVaultParams at h
    split_ifs at h with h1 h2 h3 h4
    push_neg at h3 h4
    exact ⟨h1, h2, h3.1, h3.2, h4.1, h4.2⟩
  · rintro ⟨ha, hn, hp0, hp1, hm0, hm1⟩
    unfold validateCopyTradingVaultParams
    rw [if_neg (not_not_intro ha), if_neg hn,
        if_neg (by push_neg; exact ⟨hp0, hp1⟩),
        if_neg (by push_neg; exact ⟨hm0, hm1⟩)]

/-- Witness for C8 amended: a concrete parameter set satisfying the
characterization validates successfully. -/
theorem validateCopyTradingVaultParams_ok_iff_witness :
    validateCopyTradingVaultParams vaultOkParams = .ok () :=
  (validateCopyTradingVaultParams_ok_iff vaultOkParams).mpr (by decide)

/-! ### C1 — deployment job state machine and retry budget -/

/-- Counterexample to claim C1 as stated: a job failing with retryCount 2 and
maxRetries 3 (so retryCount strictly below maxRetries) is finalized FAILED
rather than re-queued Pending, because the code finalizes as soon as
retryCount + 1 reaches maxRetries. -/
theorem deployment_retry_offbyone_cex :
    deployItemCex.retryCount < deployItemCex.maxRetries ∧
    (processDeploymentItem deployItemCex (.error "RPC error")).1.deploymentStatus
      = .FAILED ∧
    (processDeploymentItem deployItemCex (.error "RPC error")).1.deploymentStatus
      ≠ .PENDING := by
  decide

/-- Claim C1 amended: a processed job goes Pending to Deploying and then to
Deployed on success; a failure with retryCount + 1 still below maxRetries
re-queues it Pending with retryCount incremented by one and no notification,
and the first failure with retryCount + 1 at or above maxRetries finalizes it
FAILED with exactly one owner notification. -/
theorem deployment_failure_state_machine (item : DeployQueueItem) (err : String)
    (r : ResolutionDeployResult) :
    (processDeploymentItem item (.ok r)).1.deploymentStatus = .DEPLOYED ∧
    processDeploymentItem item (.error err) =
      handleDeploymentFailure { item with deploymentStatus := .DEPLOYING } err ∧
    (item.retryCount + 1 < item.maxRetries →
      (handleDeploymentFailure item err).1.deploymentStatus = .PENDING ∧
      (handleDeploymentFailure item err).1.retryCount = item.retryCount + 1 ∧
      (handleDeploymentFailure item err).2 = 0) ∧
    (item.maxRetries ≤ item.retryCount + 1 →
      (handleDeploymentFailure item err).1.deploymentStatus = .FAILED ∧
      (handleDeploymentFailure item err).1.retryCount = item.retryCount ∧
      (handleDeploymentFailure item err).2 = 1) := by
  refine ⟨rfl, rfl, ?_, ?_⟩
  · intro h
    unfold handleDeploymentFailure
    rw [if_neg (by omega)]
    exact ⟨rfl, rfl, rfl⟩
  · intro h
    unfold handleDeploymentFailure
    rw [if_pos h]
    exact ⟨rfl, rfl, rfl⟩

/-- Witness for C1 amended at a fresh job (retry budget untouched) and at an
exhausted one. -/
theorem deployment_failure_state_machine_witness :
    ((handleDeploymentFailure deployItemFresh "boom").1.deploymentStatus = .PENDING ∧
     (handleDeploymentFailure deployItemFresh "boom").1.retryCount = 1) ∧
    ((handleDeploymentFailure deployItemCex "boom").1.deploymentStatus = .FAILED ∧
     (handleDeploymentFailure deployItemCex "boom").2 = 1) :=
  ⟨⟨((deployment_failure_state_machine deployItemFresh "boom"
        { address := "0xa", tx := "0xt" }).2.2.1 (by decide)).1,
    ((deployment_failure_state_machine deployItemFresh "boom"
        { address := "0xa", tx := "0xt" }).2.2.1 (by decide)).2.1⟩,
   ⟨((deployment_failure_state_machine deployItemCex "boom"
        { address := "0xa", tx := "0xt" }).2.2.2 (by decide)).1,
    ((deployment_failure_state_machine deployItemCex "boom"
        { address := "0xa", tx := "0xt" }).2.2.2 (by decide)).2.2⟩⟩

/-! ### C4 — re-entrancy guard and flag release -/

/-- Claim C4: a processQueue call that finds isProcessing set is a complete
no-op (the state, items and alerts included, is returned unchanged), and a
call that enters the batch — normal completion, the empty-batch early return,
or an injected data-access exception alike — ends with isProcessing cleared. -/
theorem processQueue_reentrancy_and_release
    (deploy : QueueItem → Except String DeploymentResult) (batchSize : Nat)
    (dbErr : Option String) (s : QueueState) :
    (s.isProcessing = true → processQueue deploy batchSize dbErr s = s) ∧
    (s.isProcessing = false →
      (processQueue deploy batchSize dbErr s).isProcessing = false) := by
  constructor
  · intro h
    unfold processQueue
    rw [h]
    simp
  · intro h
    unfold processQueue
    rw [h]
    simp

/-- Witness for C4: with the guard set the call returns the state unchanged,
and with the guard clear (here on an empty queue, exercising the empty-batch
early return) the call ends with the flag cleared. -/
theorem processQueue_reentrancy_and_release_witness :
    processQueue (fun _ => .error "down") 5 none
        { items := [], isProcessing := true, alerts := [] } =
      { items := [], isProcessing := true, alerts := [] } ∧
    (processQueue (fun _ => .error "down") 5 none
        { items := [], isProcessing := false, alerts := [] }).isProcessing = false :=
  ⟨(processQueue_reentrancy_and_release (fun _ => .error "down") 5 none
      { items := [], isProcessing := true, alerts := [] }).1 rfl,
   (processQueue_reentrancy_and_release (fun _ => .error "down") 5 none
      { items := [], isProcessing := false, alerts := [] }).2 rfl⟩

/-! ### C3 — confirmation wait -/

/-- The poll loop succeeds exactly when some tick within the fuel budget
yields a qualifying receipt. -/
theorem waitLoop_ok_iff (receiptAt : Nat → Option TxReceipt) (cb : Nat) :
    ∀ fuel t0, (∃ r, waitLoop receiptAt cb t0 fuel = .ok r) ↔
      ∃ i, i < fuel ∧ qualifyingAt receiptAt cb (t0 + i) = true := by
  intro fuel
  induction fuel with
  | zero =>
    intro t0
    simp [waitLoop]
  | succ n ih =>
    intro t0
    have shift : (∃ i, i < n ∧ qualifyingAt receiptAt cb (t0 + 1 + i) = true) ∨
        qualifyingAt receiptAt cb t0 = true ↔
        ∃ i, i < n + 1 ∧ qualifyingAt receiptAt cb (t0 + i) = true := by
      constructor
      · rintro (⟨i, hi, hq⟩ | hq)
        · exact ⟨i + 1, by omega, by rw [show t0 + (i + 1) = t0 + 1 + i by omega]; exact hq⟩
        · exact ⟨0, by omega, hq⟩
      · rintro ⟨i, hi, hq⟩
        cases i with
        | zero => exact Or.inr hq
        | succ j =>
          exact Or.inl ⟨j, by omega, by rw [show t0 + 1 + j = t0 + (j + 1) by omega]; exact hq⟩
    rw [← shift]
    cases hr : receiptAt t0 with
    | none =>
      have hq0 : qualifyingAt receiptAt cb t0 = false := by simp [qualifyingAt, hr]
      simp only [waitLoop, hr, hq0]
      rw [ih (t0 + 1)]
      simp
    | some r0 =>
      by_cases hc : cb ≤ r0.confirmations
      · have hq0 : qualifyingAt receiptAt cb t0 = true := by simp [qualifyingAt, hr, hc]
        simp only [waitLoop, hr, if_pos hc, hq0]
        simp
      · have hq0 : qualifyingAt receiptAt cb t0 = false := by simp [qualifyingAt, hr, hc]
        simp only [waitLoop, hr, if_neg hc, hq0]
        rw [ih (t0 + 1)]
        simp

/-- A successful poll returns a receipt the provider produced at some tick
within the budget, and that receipt meets the confirmation threshold. -/
theorem waitLoop_ok_receipt (receiptAt : Nat → Option TxReceipt) (cb : Nat) :
    ∀ fuel t0 r, waitLoop receiptAt cb t0 fuel = .ok r →
      cb ≤ r.confirmations ∧ ∃ i, i < fuel ∧ receiptAt (t0 + i) = some r := by
  intro fuel
  induction fuel with
  | zero =>
    intro t0 r h
    simp [waitLoop] at h
  | succ n ih =>
    intro t0 r h
    rw [waitLoop] at h
    revert h
    cases hr : receiptAt t0 with
    | none =>
      intro h
      obtain ⟨hcb, i, hi, hrec⟩ := ih (t0 + 1) r h
      exact ⟨hcb, i + 1, by omega, by rw [show t0 + (i + 1) = t0 + 1 + i by omega]; exact hrec⟩
    | some r0 =>
      dsimp only
      by_cases hc : cb ≤ r0.confirmations
      · rw [if_pos hc]
        intro h
        cases h
        exact ⟨hc, 0, by omega, by simpa using hr⟩
      · rw [if_neg hc]
        intro h
        obtain ⟨hcb, i, hi, hrec⟩ := ih (t0 + 1) r h
        exact ⟨hcb, i + 1, by omega, by rw [show t0 + (i + 1) = t0 + 1 + i by omega]; exact hrec⟩

/-- Claim C3 amended: the confirmation wait succeeds exactly when, before the
timeout budget of poll ticks runs out, the provider returns a receipt whose
confirmation count has reached confirmationBlocks, and it times out with an
error otherwise; a successful result is such a receipt. The on-chain status of
the receipt is never examined, so this characterization holds for reverted
receipts as well (see the counterexample). -/
theorem waitForConfirmation_spec (receiptAt : Nat → Option TxReceipt)
    (cb fuel : Nat) :
    ((∃ r, waitForConfirmation receiptAt cb fuel = .ok r) ↔
      ∃ i, i < fuel ∧ qualifyingAt receiptAt cb i = true) ∧
    (∀ r, waitForConfirmation receiptAt cb fuel = .ok r →
      cb ≤ r.confirmations ∧ ∃ i, i < fuel ∧ receiptAt i = some r) ∧
    (waitForConfirmation receiptAt cb fuel = .error "Deployment timeout" ↔
      ∀ i, i < fuel → qualifyingAt receiptAt cb i = false) := by
  refine ⟨?_, ?_, ?_⟩
  · simpa using waitLoop_ok_iff receiptAt cb fuel 0
  · intro r h
    simpa using waitLoop_ok_receipt receiptAt cb fuel 0 r h
  · constructor
    · intro h i hi
      by_contra hq
      have hq2 : qualifyingAt receiptAt cb i = true := by
        cases hqa : qualifyingAt receiptAt cb i with
        | false => exact absurd hqa hq
        | true => rfl
      have hiff := waitLoop_ok_iff receiptAt cb fuel 0
      obtain ⟨r, hr⟩ := hiff.mpr ⟨i, hi, by simpa using hq2⟩
      rw [waitForConfirmation] at h
      rw [h] at hr
      exact Except.noConfusion hr
    · intro h
      rcases he : waitForConfirmation receiptAt cb fuel with e | r
      · have hmsg : ∀ fuel2 t0, waitLoop receiptAt cb t0 fuel2 = .error e →
            e = "Deployment timeout" := by
          intro fuel2
          induction fuel2 with
          | zero =>
            intro t0 hh
            rw [waitLoop] at hh
            cases hh
            rfl
          | succ n ih =>
            intro t0 hh
            rw [waitLoop] at hh
            revert hh
            cases hr : receiptAt t0 with
            | none =>
              intro hh
              exact ih (t0 + 1) hh
            | some r0 =>
              dsimp only
              by_cases hc : cb ≤ r0.confirmations
              · rw [if_pos hc]
                intro hh
                exact Except.noConfusion hh
              · rw [if_neg hc]
                intro hh
                exact ih (t0 + 1) hh
        rw [hmsg fuel 0 he]
      · exfalso
        have hiff := waitLoop_ok_iff receiptAt cb fuel 0
        have hex := hiff.mp ⟨r, he⟩
        obtain ⟨i, hi, hq⟩ := hex
        rw [Nat.zero_add] at hq
        rw [h i hi] at hq
        exact Bool.noConfusion hq

/-- Counterexample to claim C3 as stated: a receipt whose status marks an
on-chain revert (status 0), once it has enough confirmations, is returned as
the successful result of the confirmation wait instead of being treated as a
submission failure. -/
theorem reverted_receipt_success_cex :
    waitForConfirmation (fun _ => some { confirmations := 2, status := 0 }) 2 5 =
      .ok { confirmations := 2, status := 0 } ∧
    ({ confirmations := 2, status := 0 } : TxReceipt).status = 0 := by
  exact ⟨rfl, rfl⟩

/-- Witness for C3 amended: with a qualifying receipt available at the first
tick, the wait succeeds. -/
theorem waitForConfirmation_spec_witness :
    ∃ r, waitForConfirmation (fun _ => some { confirmations := 3, status := 1 }) 2 5 =
      .ok r :=
  (waitForConfirmation_spec (fun _ => some { confirmations := 3, status := 1 }) 2 5).1.mpr
    ⟨0, by omega, rfl⟩

/-! ### C5 — retry wrapper with exponential backoff -/

/-- Unfolding of the poll-free retry loop at zero fuel. -/
theorem retryGo_zero {R : Type} (op : Nat → Except String R) (d : Nat)
    (lastErr : Option String) (attempt : Nat) :
    retryGo op d lastErr attempt 0 =
      { result := .error lastErr, delays := [], attempts := [] } := by
  rw [retryGo.eq_def]

/-- One-step unfolding of the retry loop with fuel remaining. -/
theorem retryGo_succ {R : Type} (op : Nat → Except String R) (d : Nat)
    (lastErr : Option String) (attempt fuel : Nat) :
    retryGo op d lastErr attempt (fuel + 1) =
      match op attempt with
      | .ok r => { result := .ok r, delays := [], attempts := [attempt] }
      | .error e =>
        match fuel with
        | 0 => { result := .error (some e), delays := [], attempts := [attempt] }
        | f + 1 =>
          let t := retryGo op d (some e) (attempt + 1) (f + 1)
          { result := t.result
            delays := d * 2 ^ (attempt - 1) :: t.delays
            attempts := attempt :: t.attempts } := by
  rw [retryGo.eq_def]

/-- Mapping over a range, first element split off. -/
theorem range_succ_map {α : Type} (f : Nat → α) (m : Nat) :
    (List.range (m + 1)).map f = f 0 :: (List.range m).map (fun j => f (j + 1)) := by
  rw [List.range_succ_eq_map, List.map_cons, List.map_map]
  rfl

/-- Closed form of the retry loop when every attempt in the window fails:
the final error wraps the message of the last attempt, the backoff delays
double starting at d times 2 to the power (first attempt - 1), and every
attempt in the window is made. -/
theorem retryGo_allFail {R : Type} (op : Nat → Except String R) (d : Nat)
    (errs : Nat → String) :
    ∀ fuel a lastErr, 0 < fuel → 1 ≤ a →
      (∀ k, a ≤ k → k < a + fuel → op k = .error (errs k)) →
      retryGo op d lastErr a fuel =
        { result := .error (some (errs (a + fuel - 1)))
          delays := (List.range (fuel - 1)).map (fun j => d * 2 ^ (a - 1 + j))
          attempts := (List.range fuel).map (fun j => a + j) } := by
  intro fuel
  induction fuel with
  | zero =>
    intro a lastErr h0 _ _
    exact absurd h0 (lt_irrefl 0)
  | succ n ih =>
    intro a lastErr _ ha hop
    rw [retryGo_succ, hop a (le_refl a) (by omega)]
    cases n with
    | zero => rfl
    | succ m =>
      dsimp only
      rw [ih (a + 1) (some (errs a)) (by omega) (by omega)
          (fun k h1 h2 => hop k (by omega) (by omega))]
      rw [RetryTrace.mk.injEq]
      refine ⟨?_, ?_, ?_⟩
      · have hx : a + 1 + (m + 1) - 1 = a + (m + 1 + 1) - 1 := by omega
        rw [hx]
      · simp only [Nat.add_sub_cancel]
        rw [range_succ_map (fun j => d * 2 ^ (a - 1 + j)) m]
        refine List.cons_eq_cons.mpr ⟨by rw [Nat.add_zero], ?_⟩
        apply List.map_congr_left
        intro x _
        have hx : a + x = a - 1 + (x + 1) := by omega
        rw [hx]
      · rw [range_succ_map (fun j => a + j) (m + 1)]
        refine List.cons_eq_cons.mpr ⟨by omega, ?_⟩
        apply List.map_congr_left
        intro x _
        omega

/-- Closed form of the retry loop when the first i attempts of the window
fail and attempt a + i succeeds: the successful result is returned, exactly
the i backoff delays before it are slept, and no attempt beyond a + i is
made. -/
theorem retryGo_success {R : Type} (op : Nat → Except String R) (d : Nat)
    (errs : Nat → String) (r : R) :
    ∀ i fuel a lastErr, i < fuel → 1 ≤ a →
      (∀ k, a ≤ k → k < a + i → op k = .error (errs k)) →
      op (a + i) = .ok r →
      retryGo op d lastErr a fuel =
        { result := .ok r
          delays := (List.range i).map (fun j => d * 2 ^ (a - 1 + j))
          attempts := (List.range (i + 1)).map (fun j => a + j) } := by
  intro i
  induction i with
  | zero =>
    intro fuel a lastErr hif ha hfail hok
    cases fuel with
    | zero => omega
    | succ n =>
      have hok2 : op a = .ok r := by simpa using hok
      rw [retryGo_succ, hok2]
      rfl
  | succ i ih =>
    intro fuel a lastErr hif ha hfail hok
    cases fuel with
    | zero => omega
    | succ n =>
      rw [retryGo_succ, hfail a (le_refl a) (by omega)]
      cases n with
      | zero => omega
      | succ m =>
        dsimp only
        rw [ih (m + 1) (a + 1) (some (errs a)) (by omega) (by omega)
            (fun k h1 h2 => hfail k (by omega) (by omega))
            (by rw [show a + 1 + i = a + (i + 1) from by omega]; exact hok)]
        rw [RetryTrace.mk.injEq]
        refine ⟨rfl, ?_, ?_⟩
        · simp only [Nat.add_sub_cancel]
          rw [range_succ_map (fun j => d * 2 ^ (a - 1 + j)) i]
          refine List.cons_eq_cons.mpr ⟨by rw [Nat.add_zero], ?_⟩
          apply List.map_congr_left
          intro x _
          have hx : a + x = a - 1 + (x + 1) := by omega
          rw [hx]
        · rw [range_succ_map (fun j => a + j) (i + 1)]
          refine List.cons_eq_cons.mpr ⟨by omega, ?_⟩
          apply List.map_congr_left
          intro x _
          omega

/-- Claim C5: for maxRetries at least 1 and base delay d, the retry wrapper
makes attempts 1, 2, ... up to maxRetries; the delay slept after a failed
attempt k with attempts remaining is d times 2 to the power (k - 1), so for
attempts 1..4 the delays are d, 2d, 4d, 8d in that order; when every attempt
fails the final error wraps the last underlying error, and when attempt i + 1
succeeds its result is returned with exactly the first i delays slept and no
further attempts. -/
theorem retryDeployment_spec {R : Type} (op : Nat → Except String R)
    (maxRetries d : Nat) (errs : Nat → String) (hmax : 1 ≤ maxRetries) :
    ((∀ k, 1 ≤ k → k ≤ maxRetries → op k = .error (errs k)) →
      retryDeployment op maxRetries d =
        { result := .error (some (errs maxRetries))
          delays := (List.range (maxRetries - 1)).map (fun j => d * 2 ^ j)
          attempts := (List.range maxRetries).map (fun j => 1 + j) }) ∧
    (∀ i r, i + 1 ≤ maxRetries →
      (∀ k, 1 ≤ k → k ≤ i → op k = .error (errs k)) → op (i + 1) = .ok r →
      retryDeployment op maxRetries d =
        { result := .ok r
          delays := (List.range i).map (fun j => d * 2 ^ j)
          attempts := (List.range (i + 1)).map (fun j => 1 + j) }) := by
  constructor
  · intro hfail
    rw [retryDeployment,
        retryGo_allFail op d errs maxRetries 1 none (by omega) (le_refl 1)
          (fun k h1 h2 => hfail k h1 (by omega))]
    have hx : 1 + maxRetries - 1 = maxRetries := by omega
    rw [hx]
    simp only [Nat.sub_self, Nat.zero_add]
  · intro i r hle hfail hok
    rw [retryDeployment,
        retryGo_success op d errs r i maxRetries 1 none (by omega) (le_refl 1)
          (fun k h1 h2 => hfail k h1 (by omega))
          (by rw [show (1 : Nat) + i = i + 1 from by omega]; exact hok)]
    simp only [Nat.sub_self, Nat.zero_add]

/-- Witness for C5: five attempts with base delay 7 all failing sleep the
delays 7, 14, 28, 56. -/
theorem retryDeployment_spec_witness :
    (retryDeployment (fun _ => (.error "boom" : Except String Unit)) 5 7).delays =
      [7, 14, 28, 56] := by
  rw [(retryDeployment_spec (fun _ => (.error "boom" : Except String Unit)) 5 7
        (fun _ => "boom") (by omega)).1 (fun _ _ _ => rfl)]
  rfl

/-! ### C9 — alert deduplication window -/

/-- A freshly recorded dispatch time is found by the next lookup. -/
theorem lookupTime_setTime_self (m : List (String × Nat)) (k : String) (t : Nat) :
    lookupTime (setTime m k t) k = some t := by
  simp [lookupTime, setTime, List.find?_cons_of_pos]

/-- A trigger that passes the dedup check records the dispatch time and
attempts every channel of the level. -/
theorem triggerAlert_pos (st : AlertServiceState) (a : Alert) (now : Nat)
    (h : shouldTriggerAlert st a now = true) :
    triggerAlert st a now =
      { returned := (getChannelsForLevel a.level).all
          (fun c => sendNotification st.notificationConfig c)
        sent := getChannelsForLevel a.level
        state := { st with lastAlertTime := setTime st.lastAlertTime (dedupKey a) now } } := by
  simp [triggerAlert, h]

/-- A deduplicated trigger returns false, sends nothing and leaves the state
unchanged. -/
theorem triggerAlert_neg (st : AlertServiceState) (a : Alert) (now : Nat)
    (h : shouldTriggerAlert st a now = false) :
    triggerAlert st a now = { returned := false, sent := [], state := st } := by
  simp [triggerAlert, h]

/-- Claim C9: with a fresh dedup key, a first trigger at time t1 dispatches to
the channels of the alert level (a non-empty list); a second trigger within
the window (t2 - t1 at most the window) returns false, sends to no channel and
leaves the state unchanged; a third trigger after the window has elapsed since
the first dispatch (t3 - t1 beyond the window) dispatches again. -/
theorem triggerAlert_dedup_window (st : AlertServiceState) (a : Alert)
    (t1 t2 t3 : Nat)
    (h0 : lookupTime st.lastAlertTime (dedupKey a) = none)
    (h1 : 0 < t1) (h12 : t1 ≤ t2) (hwin : t2 - t1 ≤ st.deduplicationWindow)
    (h3 : st.deduplicationWindow < t3 - t1) :
    (triggerAlert st a t1).sent = getChannelsForLevel a.level ∧
    (triggerAlert st a t1).sent ≠ [] ∧
    (triggerAlert (triggerAlert st a t1).state a t2).returned = false ∧
    (triggerAlert (triggerAlert st a t1).state a t2).sent = [] ∧
    (triggerAlert (triggerAlert st a t1).state a t2).state =
      (triggerAlert st a t1).state ∧
    (triggerAlert (triggerAlert (triggerAlert st a t1).state a t2).state a t3).sent =
      getChannelsForLevel a.level := by
  have hs1 : shouldTriggerAlert st a t1 = true := by
    simp [shouldTriggerAlert, h0]
  have hs2 : shouldTriggerAlert (triggerAlert st a t1).state a t2 = false := by
    rw [triggerAlert_pos st a t1 hs1]
    simp only [shouldTriggerAlert, lookupTime_setTime_self]
    rw [if_neg (Nat.pos_iff_ne_zero.mp h1)]
    exact decide_eq_false_iff_not.mpr (by omega)
  have hs3 : shouldTriggerAlert (triggerAlert st a t1).state a t3 = true := by
    rw [triggerAlert_pos st a t1 hs1]
    simp only [shouldTriggerAlert, lookupTime_setTime_self]
    rw [if_neg (Nat.pos_iff_ne_zero.mp h1)]
    exact decide_eq_true_eq.mpr h3
  refine ⟨?_, ?_, ?_, ?_, ?_, ?_⟩
  · rw [triggerAlert_pos st a t1 hs1]
  · rw [triggerAlert_pos st a t1 hs1]
    cases a.level <;> simp [getChannelsForLevel]
  · rw [triggerAlert_neg _ a t2 hs2]
  · rw [triggerAlert_neg _ a t2 hs2]
  · rw [triggerAlert_neg _ a t2 hs2]
  · rw [triggerAlert_neg _ a t2 hs2, triggerAlert_pos _ a t3 hs3]

/-- A service state with all channels enabled, the default 60 second window,
and no recorded dispatches. -/
def alertStateEx : AlertServiceState :=
  { notificationConfig := { emailEnabled := true, slackEnabled := true, smsEnabled := true }
    deduplicationWindow := 60000
    lastAlertTime := [] }

/-- A warning alert from the deployment queue. -/
def alertEx : Alert :=
  { id := "a1", title := "BinaryMarket Deployment Failed",
    description := "Deployment failed: boom", level := .WARNING,
    status := .ACTIVE, timestamp := 0, source := "deployment-queue" }

/-- Witness for C9: triggers at 1000 ms, 30000 ms (inside the 60 s window) and
100000 ms (outside it). -/
theorem triggerAlert_dedup_window_witness :
    (triggerAlert alertStateEx alertEx 1000).sent =
      getChannelsForLevel alertEx.level ∧
    (triggerAlert (triggerAlert alertStateEx alertEx 1000).state alertEx 30000).sent
      = [] ∧
    (triggerAlert (triggerAlert (triggerAlert alertStateEx alertEx 1000).state
        alertEx 30000).state alertEx 100000).sent =
      getChannelsForLevel alertEx.level := by
  have h := triggerAlert_dedup_window alertStateEx alertEx 1000 30000 100000
    rfl (by omega) (by omega) (by decide) (by decide)
  exact ⟨h.1, h.2.2.2.1, h.2.2.2.2.2⟩

/-! ### C6 — fee quote invariants -/

/-- The ceiling multiplier preserves non-negativity. -/
theorem applyMultiplier_nonneg (v : ℤ) (m : ℚ) (hv : 0 ≤ v) (hm : 0 ≤ m) :
    0 ≤ applyMultiplier v m :=
  Int.ceil_nonneg (mul_nonneg (by exact_mod_cast hv) hm)

/-- Fees produced by getEIP1559Fees from non-negative provider data are
non-negative. -/
theorem getEIP1559Fees_nonneg (fd : FeeData) (cfg : GasConfig)
    (hpm : 0 ≤ cfg.priceMultiplier)
    (hmf : ∀ x, fd.maxFeePerGas = some x → 0 ≤ x)
    (hmp : ∀ x, fd.maxPriorityFeePerGas = some x → 0 ≤ x) :
    ∀ fees, getEIP1559Fees fd cfg = .ok fees → 0 ≤ fees.1 ∧ 0 ≤ fees.2 := by
  intro fees h
  unfold getEIP1559Fees at h
  revert h
  cases hmf2 : fd.maxFeePerGas with
  | none => intro h; simp at h
  | some mf =>
    cases hmp2 : fd.maxPriorityFeePerGas with
    | none => intro h; simp at h
    | some mp =>
      intro h
      dsimp only at h
      split_ifs at h
      simp only [Except.ok.injEq] at h
      rw [← h]
      exact ⟨applyMultiplier_nonneg mf cfg.priceMultiplier (hmf mf hmf2) hpm,
             applyMultiplier_nonneg mp cfg.priceMultiplier (hmp mp hmp2) hpm⟩

/-- The gas-limit estimate is non-negative when the provider estimate is. -/
theorem estimateTransactionGas_nonneg (er : Except String ℤ) (cfg : GasConfig)
    (hlm : 0 ≤ cfg.limitMultiplier) (hg : ∀ x, er = .ok x → 0 ≤ x) :
    0 ≤ estimateTransactionGas er cfg := by
  cases er with
  | ok g =>
    simp only [estimateTransactionGas]
    exact applyMultiplier_nonneg g cfg.limitMultiplier (hg g rfl) hlm
  | error e =>
    simp only [estimateTransactionGas]
    norm_num

/-- Claim C6 amended: every quote produced from non-negative provider data
under non-negative multipliers has non-negative gasLimit, gasPrice,
maxFeePerGas, maxPriorityFeePerGas and totalCost, and its totalCost equals
gasLimit times maxFeePerGas (the legacy gasPrice field does not enter the
product). -/
theorem estimateGas_invariants (cfg : GasConfig) (providerGasPrice : ℤ)
    (fd : FeeData) (er : Except String ℤ) (q : GasEstimate)
    (hpm : 0 ≤ cfg.priceMultiplier) (hlm : 0 ≤ cfg.limitMultiplier)
    (hp : 0 ≤ providerGasPrice)
    (hmf : ∀ x, fd.maxFeePerGas = some x → 0 ≤ x)
    (hmp : ∀ x, fd.maxPriorityFeePerGas = some x → 0 ≤ x)
    (hg : ∀ x, er = .ok x → 0 ≤ x)
    (hq : estimateGas cfg providerGasPrice fd er = .ok q) :
    0 ≤ q.gasLimit ∧ 0 ≤ q.gasPrice ∧ 0 ≤ q.maxFeePerGas ∧
    0 ≤ q.maxPriorityFeePerGas ∧ 0 ≤ q.totalCost ∧
    q.totalCost = q.gasLimit * q.maxFeePerGas := by
  unfold estimateGas at hq
  revert hq
  cases hfees : getEIP1559Fees fd cfg with
  | error e => intro hq; simp at hq
  | ok fees =>
    intro hq
    simp only [Except.ok.injEq] at hq
    obtain ⟨hf1, hf2⟩ := getEIP1559Fees_nonneg fd cfg hpm hmf hmp fees hfees
    have hgl : 0 ≤ estimateTransactionGas er cfg :=
      estimateTransactionGas_nonneg er cfg hlm hg
    rw [← hq]
    refine ⟨hgl, ?_, hf1, hf2, mul_nonneg hgl hf1, rfl⟩
    exact applyMultiplier_nonneg providerGasPrice cfg.priceMultiplier hp hpm

/-- The quote the source produces for base price 40, fee data (30, 2),
gas estimate 100 under the default multipliers 1.2 and 1.3. -/
def cexQuote : GasEstimate :=
  { gasLimit := 130, gasPrice := 48, maxFeePerGas := 36, maxPriorityFeePerGas := 3,
    totalCost := 4680, totalCostInUSD := 4680 / 10 ^ 18 * 2000 }

/-- Counterexample to claim C6 as stated: in this quote the quoted legacy
gasPrice (48) exceeds maxFeePerGas (36), and totalCost is gasLimit times
maxFeePerGas (4680), not gasLimit times the larger of the two price fields
(which would be 6240). -/
theorem estimateGas_totalCost_cex :
    estimateGas cfgEx 40 fdEx (.ok 100) = .ok cexQuote ∧
    cexQuote.totalCost ≠ cexQuote.gasLimit * max cexQuote.gasPrice cexQuote.maxFeePerGas := by
  constructor
  · have hfees : getEIP1559Fees fdEx cfgEx = .ok (36, 3) := by
      simp only [getEIP1559Fees, fdEx, cfgEx]
      rw [if_neg (by norm_num)]
      simp only [applyMultiplier, Except.ok.injEq, Prod.mk.injEq]
      constructor
      · rw [Int.ceil_eq_iff]; push_cast; norm_num
      · rw [Int.ceil_eq_iff]; push_cast; norm_num
    have hlimit : estimateTransactionGas (.ok 100) cfgEx = 130 := by
      simp only [estimateTransactionGas, applyMultiplier, cfgEx]
      rw [Int.ceil_eq_iff]; push_cast; norm_num
    have hprice : getGasPrice 40 cfgEx = 48 := by
      simp only [getGasPrice, applyMultiplier, cfgEx]
      rw [Int.ceil_eq_iff]; push_cast; norm_num
    simp only [estimateGas, hfees, hlimit, hprice]
    norm_num [cexQuote, cfgEx]
  · decide

/-- Witness for C6 amended at unit multipliers, base price 40, fee data
(30, 2) and gas estimate 100. -/
theorem estimateGas_invariants_witness :
    0 ≤ ({ gasLimit := 100, gasPrice := 40, maxFeePerGas := 30,
           maxPriorityFeePerGas := 2, totalCost := 3000,
           totalCostInUSD := 3000 / 10 ^ 18 * 2000 } : GasEstimate).totalCost ∧
    ({ gasLimit := 100, gasPrice := 40, maxFeePerGas := 30,
       maxPriorityFeePerGas := 2, totalCost := 3000,
       totalCostInUSD := 3000 / 10 ^ 18 * 2000 } : GasEstimate).totalCost =
      100 * 30 := by
  have hq : estimateGas cfgOne 40 fdEx (.ok 100) =
      .ok { gasLimit := 100, gasPrice := 40, maxFeePerGas := 30,
            maxPriorityFeePerGas := 2, totalCost := 3000,
            totalCostInUSD := 3000 / 10 ^ 18 * 2000 } := by
    have hfees : getEIP1559Fees fdEx cfgOne = .ok (30, 2) := by
      simp only [getEIP1559Fees, fdEx, cfgOne]
      rw [if_neg (by norm_num)]
      simp [applyMultiplier]
    have hlimit : estimateTransactionGas (.ok 100) cfgOne = 100 := by
      simp [estimateTransactionGas, applyMultiplier, cfgOne]
    have hprice : getGasPrice 40 cfgOne = 40 := by
      simp [getGasPrice, applyMultiplier, cfgOne]
    simp only [estimateGas, hfees, hlimit, hprice]
    norm_num [cfgOne]
  have h := estimateGas_invariants cfgOne 40 fdEx (.ok 100) _
    (by norm_num [cfgOne]) (by norm_num [cfgOne]) (by norm_num)
    (by intro x hx; simp [fdEx] at hx; omega)
    (by intro x hx; simp [fdEx] at hx; omega)
    (by intro x hx; simp at hx; omega) hq
  exact ⟨h.2.2.2.2.1, h.2.2.2.2.2⟩

/-! ### C2 — uniform failure handling in the queue processor -/

/-- Effect of processQueueItem on a failed deployment: the item is marked
failed with the error recorded, one WARNING alert is appended, and no retry
count changes. -/
theorem processQueueItem_error (deploy : QueueItem → Except String DeploymentResult)
    (s : QueueState) (item : QueueItem) (e : String) (hd : deploy item = .error e) :
    processQueueItem deploy s item =
      { items := s.items.map (fun it =>
          if it.id = item.id then { it with status := .failed, errorMsg := some e }
          else it)
        isProcessing := s.isProcessing
        alerts := s.alerts ++
          [{ title := typeName item.itemType ++ " Deployment Failed",
             description := "Deployment failed: " ++ e,
             level := .WARNING, source := "deployment-queue" }] } := by
  simp only [processQueueItem, updateQueueItemStatus, markQueueItemFailed,
             createAlert, hd]
  rw [List.map_map, List.map_map]
  congr 1
  apply List.map_congr_left
  intro it _
  by_cases h : it.id = item.id <;> simp [h, Function.comp]

/-- Pre-computed fixture: deployment whose only failure mode is parameter
validation — every call validates the parameters for the item kind and then
succeeds with a fixed result. -/
def deployValidateOnly : QueueItem → Except String DeploymentResult := fun it =>
  match it.params with
  | .binary p =>
    match validateBinaryMarketParams 0 p with
    | .error e => .error e
    | .ok _ => .ok { contractAddress := "0xc", transactionHash := "0xt",
                     blockNumber := 1, gasUsed := 0, deploymentTime := 0,
                     confirmations := 1 }
  | .vault p =>
    match validateCopyTradingVaultParams p with
    | .error e => .error e
    | .ok _ => .ok { contractAddress := "0xc", transactionHash := "0xt",
                     blockNumber := 1, gasUsed := 0, deploymentTime := 0,
                     confirmations := 1 }

/-- A queued BinaryMarket item whose title is empty, so its deployment always
fails validation; its retry budget is untouched. -/
def badTitleItem : QueueItem :=
  { id := 1, itemType := .binaryMarket,
    params := .binary { title := "", description := "d", endTime := 100,
                        oracleAddress := "0xaaaaaaaaaaaaaaaaaaaaaaaaaaaaaaaaaaaaaaaa",
                        initialLiquidity := 1 }
    status := .pending, retryCount := 0, maxRetries := 3, errorMsg := none }

/-- Queue state holding only the validation-failing item. -/
def cexState : QueueState :=
  { items := [badTitleItem], isProcessing := false, alerts := [] }

/-- Counterexample to claim C2 as stated: the deployment of badTitleItem fails
with a validation error, yet one processQueue pass retries it from the failed
pool and increments its retryCount from 0 to 1 — a validation failure consumes
retry budget exactly like any other failure. -/
theorem validation_failure_retried_cex :
    deployValidateOnly badTitleItem = .error "Invalid title: must not be empty" ∧
    (processQueue deployValidateOnly 5 none cexState).items.map
      (fun it => it.retryCount) = [1] ∧
    (processQueue deployValidateOnly 5 none cexState).items.map
      (fun it => it.status) = [.failed] := by
  refine ⟨rfl, ?_, ?_⟩ <;> decide

/-- Claim C2 amended: the processor handles validation failures exactly like
every other failure. A failing processQueueItem call marks the item failed
with the thrown message and one WARNING alert, leaving every retryCount
unchanged; retryQueueItem (invoked from the failed pool for any failure kind
with budget left) increments the retry count by one and re-processes; and an
exhausted item is finalized by markQueueItemFailed with the message Max
retries exceeded and no alert of any level. -/
theorem queue_failure_handling_uniform :
    (∀ (deploy : QueueItem → Except String DeploymentResult) (s : QueueState)
       (item : QueueItem) (e : String), deploy item = .error e →
       processQueueItem deploy s item =
         { items := s.items.map (fun it =>
             if it.id = item.id then { it with status := .failed, errorMsg := some e }
             else it)
           isProcessing := s.isProcessing
           alerts := s.alerts ++
             [{ title := typeName item.itemType ++ " Deployment Failed",
                description := "Deployment failed: " ++ e,
                level := .WARNING, source := "deployment-queue" }] }) ∧
    (∀ (deploy : QueueItem → Except String DeploymentResult) (s : QueueState)
       (item : QueueItem) (e : String),
       deploy { item with retryCount := item.retryCount + 1 } = .error e →
       retryQueueItem deploy s item =
         { items := s.items.map (fun it =>
             if it.id = item.id then
               { it with retryCount := it.retryCount + 1, status := .failed,
                         errorMsg := some e }
             else it)
           isProcessing := s.isProcessing
           alerts := s.alerts ++
             [{ title := typeName item.itemType ++ " Deployment Failed",
                description := "Deployment failed: " ++ e,
                level := .WARNING, source := "deployment-queue" }] }) ∧
    (∀ (s : QueueState) (item : QueueItem) (msg : String),
       markQueueItemFailed s item msg =
         { items := s.items.map (fun it =>
             if it.id = item.id then { it with status := .failed, errorMsg := some msg }
             else it)
           isProcessing := s.isProcessing
           alerts := s.alerts }) := by
  refine ⟨processQueueItem_error, ?_, ?_⟩
  · intro deploy s item e hd
    simp only [retryQueueItem]
    rw [processQueueItem_error deploy _ _ e hd]
    rw [List.map_map]
    congr 1
    apply List.map_congr_left
    intro it _
    by_cases h : it.id = item.id <;> simp [h, Function.comp]
  · intro s item msg
    simp only [markQueueItemFailed, updateQueueItemStatus]
    rw [List.map_map]
    congr 1
    apply List.map_congr_left
    intro it _
    by_cases h : it.id = item.id <;> simp [h, Function.comp]

/-- Witness for C2 amended: the failing validation of badTitleItem yields
exactly one WARNING alert and the failed status. -/
theorem queue_failure_handling_uniform_witness :
    (processQueueItem deployValidateOnly cexState badTitleItem).alerts =
      [{ title := "BinaryMarket Deployment Failed",
         description := "Deployment failed: Invalid title: must not be empty",
         level := .WARNING, source := "deployment-queue" }] := by
  rw [queue_failure_handling_uniform.1 deployValidateOnly cexState badTitleItem
      "Invalid title: must not be empty" rfl]
  rfl

end Nexus
